import Mathlib

/-!
# Verification of the OpenRoad-Autonomy delivery-robot core

Shallow embedding, over `ℚ`, of the parts of the repository that the
statements under scrutiny are about:

* `app/services/battery_model.py` — `BatteryModel` (energy model);
* `app/services/robot_controller.py` — `RobotController` (mission state
  machine, movement loop, emergency stop / resume);
* `app/services/map_service.py` and `app/services/routing_engine.py` —
  the two A* edge-cost functions;
* `app/api/websocket_manager.py` — `ConnectionManager` (subscriber registry).

Python floats are modelled as rationals; each definition is transcribed from
the corresponding Python function and keeps its name.
-/

namespace OpenRoad

/-! ## Battery model (`app/services/battery_model.py`) -/

/-- `BatteryHealth` enum (battery_model.py lines 8-13). -/
inductive BatteryHealth
  | EXCELLENT
  | GOOD
  | FAIR
  | POOR
  | CRITICAL
deriving DecidableEq

/-- `BatteryStats` dataclass (battery_model.py lines 15-24).  `cycles` is
declared `int` but is incremented by `0.1` at runtime, so it is rational. -/
structure BatteryStats where
  capacity_kwh : ℚ
  current_charge_kwh : ℚ
  voltage_v : ℚ := 48
  current_a : ℚ := 0
  temperature_c : ℚ := 25
  cycles : ℚ := 0
  health : BatteryHealth := .EXCELLENT
  charging : Bool := false
deriving DecidableEq

/-- The `BatteryModel` object: its `stats` plus the constants set in
`__init__` (battery_model.py lines 29-38).  Defaults are the
`config.py` settings (`BATTERY_CAPACITY_KWH = 2.5`,
`BATTERY_CONSUMPTION_KWH_PER_KM = 0.08`). -/
structure BatteryModel where
  stats : BatteryStats
  consumption_rate : ℚ := 2 / 25
  regenerative_braking_efficiency : ℚ := 7 / 10
  temperature_derate_factor : ℚ := 1
  cycle_degradation : ℚ := 1 / 5000
deriving DecidableEq

/-- `BatteryModel.calculate_consumption` (battery_model.py lines 40-70).
Decimal constants of the source appear as the equal rationals:
`0.01 = 1/100`, `0.05 = 1/20`, `0.5 = 1/2`. -/
def calculate_consumption (m : BatteryModel)
    (distance_m speed_kmh grade_percent : ℚ) : ℚ :=
  let distance_km := distance_m / 1000
  let base_consumption := distance_km * m.consumption_rate
  let speed_factor := 1 + (1 / 100) * (speed_kmh / 10) ^ 2
  let grade_factor := 1 + (1 / 20) * grade_percent
  let temp_factor := m.temperature_derate_factor
  let health_factor := 1 + (1000 - m.stats.cycles) * m.cycle_degradation
  let consumption :=
    base_consumption * speed_factor * grade_factor * temp_factor / health_factor
  if grade_percent < 0 then
    let regen_recovery :=
      -grade_percent * (1 / 100) * m.regenerative_braking_efficiency
    consumption * (1 - min regen_recovery (1 / 2))
  else
    consumption

/-- `BatteryModel._update_health` threshold classification
(battery_model.py lines 141-154), as the pure function of the
capacity-retention ratio it computes. -/
def classifyHealth (capacity_retention : ℚ) : BatteryHealth :=
  if 4 / 5 < capacity_retention then .EXCELLENT
  else if 3 / 5 < capacity_retention then .GOOD
  else if 2 / 5 < capacity_retention then .FAIR
  else if 1 / 5 < capacity_retention then .POOR
  else .CRITICAL

/-- Outcome of `consume_energy`: the three return shapes of
battery_model.py lines 77, 83-88 and 103-108, plus the
`ZeroDivisionError` the function can raise from line 91. -/
inductive ConsumeOutcome
  | chargingInProgress
  | insufficient (required_kwh available_kwh : ℚ)
  | zeroDivisionError
  | ok (consumption_kwh remaining_kwh percentage : ℚ)
deriving DecidableEq

/-- The `'success'` field of the returned dictionary; a raising call
returns no dictionary and is not a success. -/
def ConsumeOutcome.success : ConsumeOutcome → Bool
  | .ok _ _ _ => true
  | _ => false

/-- `BatteryModel.consume_energy` (battery_model.py lines 72-108), as a
function from the model to the outcome and the updated model.  The source
guard is `consumption > current_charge`; `0.8` is `4/5`, `0.1` is `1/10`.

Line 90 decrements the charge; line 91 then computes the current draw
`(consumption * 1000) / (distance_m / speed_kmh * 3600)` when
`distance_m > 0`, and for `speed_kmh = 0` the inner division raises
`ZeroDivisionError` — after the decrement of line 90 and before the
cycle and health updates.  That raise is the `zeroDivisionError`
outcome.  Over `ℚ`, with `speed_kmh ≠ 0` and `distance_m > 0` the
divisor `distance_m / speed_kmh * 3600` is nonzero, so no other
division in the function can raise. -/
def consume_energy (m : BatteryModel)
    (distance_m speed_kmh grade_percent : ℚ) :
    ConsumeOutcome × BatteryModel :=
  if m.stats.charging then
    (.chargingInProgress, m)
  else
    let consumption := calculate_consumption m distance_m speed_kmh grade_percent
    if m.stats.current_charge_kwh < consumption then
      (.insufficient consumption m.stats.current_charge_kwh, m)
    else
      let charge1 := m.stats.current_charge_kwh - consumption
      if 0 < distance_m ∧ speed_kmh = 0 then
        (.zeroDivisionError,
         { m with stats := { m.stats with current_charge_kwh := charge1 } })
      else
        let amps :=
          if 0 < distance_m then
            consumption * 1000 / (distance_m / speed_kmh * 3600)
          else 0
        let depth_of_discharge := 1 - charge1 / m.stats.capacity_kwh
        let cycles1 :=
          if 4 / 5 < depth_of_discharge then m.stats.cycles + 1 / 10
          else m.stats.cycles
        let stats1 : BatteryStats :=
          { m.stats with
            current_charge_kwh := charge1
            current_a := amps
            cycles := cycles1 }
        let stats2 : BatteryStats :=
          { stats1 with
            health := classifyHealth (stats1.current_charge_kwh / stats1.capacity_kwh) }
        let m1 : BatteryModel := { m with stats := stats2 }
        (.ok consumption charge1 (charge1 / m.stats.capacity_kwh * 100), m1)

/-- Return dictionary of `charge` (battery_model.py lines 122-125). -/
structure ChargeResult where
  charged_kwh : ℚ
  percentage : ℚ
deriving DecidableEq

/-- `BatteryModel.charge` (battery_model.py lines 110-125).  Note that the
source does not call `_update_health` here. -/
def charge (m : BatteryModel) (energy_kwh : ℚ) : ChargeResult × BatteryModel :=
  let old_charge := m.stats.current_charge_kwh
  let new_charge := min (old_charge + energy_kwh) m.stats.capacity_kwh
  let stats1 : BatteryStats :=
    { m.stats with
      current_charge_kwh := new_charge
      charging := decide (0 < energy_kwh) }
  (⟨new_charge - old_charge, new_charge / m.stats.capacity_kwh * 100⟩,
   { m with stats := stats1 })

/-- `BatteryModel.can_complete_route` (battery_model.py lines 131-134):
`required <= current_charge * 0.9`, with the default grade `0`.
It returns a boolean and performs no assignment. -/
def can_complete_route (m : BatteryModel)
    (route_distance_m avg_speed_kmh : ℚ) : Bool :=
  decide (calculate_consumption m route_distance_m avg_speed_kmh 0
    ≤ m.stats.current_charge_kwh * (9 / 10))

/-- `BatteryModel.estimate_range` (battery_model.py lines 136-139). -/
def estimate_range (m : BatteryModel) : ℚ :=
  m.stats.current_charge_kwh / m.consumption_rate * 1000

/-! ## Robot controller (`app/services/robot_controller.py`,
`app/models/robot_state.py`) -/

/-- `RobotMode` enum (robot_state.py lines 6-14). -/
inductive RobotMode
  | IDLE
  | PICKUP
  | TRANSIT
  | DELIVERY
  | RETURN
  | CHARGING
  | EMERGENCY
  | OFFLINE
deriving DecidableEq

/-- `RobotState` dataclass (robot_state.py lines 16-31).  Coordinates and
distances are rationals; the path is a list of coordinate pairs. -/
structure RobotState where
  mode : RobotMode := .IDLE
  current_lat : ℚ := 0
  current_lon : ℚ := 0
  battery_percentage : ℚ := 100
  current_speed_kmh : ℚ := 0
  target_lat : Option ℚ := none
  target_lon : Option ℚ := none
  path_index : ℕ := 0
  total_path : List (ℚ × ℚ) := []
  distance_traveled_m : ℚ := 0
  obstacle_detected : Bool := false
  error_message : Option String := none
deriving DecidableEq

/-- The `RobotController` fields touched by `start_delivery`,
`emergency_stop` and `resume_mission` (robot_controller.py lines 30-44). -/
structure RobotController where
  state : RobotState
  battery : BatteryModel
  path : List (ℚ × ℚ) := []
  emergency_stop_activated : Bool := false
  is_moving : Bool := false
deriving DecidableEq

/-- `RobotController.emergency_stop` (robot_controller.py lines 384-389). -/
def emergency_stop (c : RobotController) : RobotController :=
  { c with
    emergency_stop_activated := true
    state := { c.state with mode := .EMERGENCY, current_speed_kmh := 0 } }

/-- `RobotController.resume_mission` (robot_controller.py lines 391-396):
it clears `emergency_stop_activated` unconditionally and changes the mode
only when it is `EMERGENCY`. -/
def resume_mission (c : RobotController) : RobotController :=
  let c1 : RobotController := { c with emergency_stop_activated := false }
  if c1.state.mode = .EMERGENCY then
    { c1 with state := { c1.state with mode := .TRANSIT } }
  else
    c1

/-- `settings.ROBOT_SPEED_KMH` (config.py). -/
def ROBOT_SPEED_KMH : ℚ := 15

/-- The dictionary returned by `start_delivery` (fields relevant to the
claims: `success` and the optional `error`). -/
structure StartResult where
  success : Bool
  error : Option String := none
deriving DecidableEq

/-- The synchronous part of `RobotController.start_delivery`
(robot_controller.py lines 90-164), as a function of the controller, the
pickup/delivery coordinates and the path.

`_calculate_path_distance` (lines 353-358) sums haversine distances, a
trigonometric real-valued computation; it enters `start_delivery` only
through the value `route_distance`, so it is passed in as the parameter
`pathDistance`.  The two `raise ValueError` sites land in the
`except ValueError` handler of lines 154-158, which sets the mode to
`IDLE`, records the message and returns a failure dictionary; nothing is
assigned before either `raise`. -/
def start_delivery (pathDistance : List (ℚ × ℚ) → ℚ)
    (c : RobotController) (pickup delivery : ℚ × ℚ)
    (path : List (ℚ × ℚ)) : StartResult × RobotController :=
  if path.length < 2 then
    (⟨false, some "Invalid path - must have at least 2 points"⟩,
     { c with state := { c.state with
         mode := .IDLE
         error_message := some "Invalid path - must have at least 2 points" } })
  else
    let route_distance := pathDistance path
    if can_complete_route c.battery route_distance ROBOT_SPEED_KMH = false then
      (⟨false, some "Insufficient battery for route"⟩,
       { c with state := { c.state with
           mode := .IDLE
           error_message := some "Insufficient battery for route" } })
    else
      (⟨true, none⟩,
       { c with
         state := { c.state with
           mode := .PICKUP
           current_lat := pickup.1
           current_lon := pickup.2
           target_lat := some delivery.1
           target_lon := some delivery.2
           total_path := path
           path_index := 0
           distance_traveled_m := 0 }
         path := path
         emergency_stop_activated := false
         is_moving := true })

/-! ### The movement loop (`_move_along_path`, robot_controller.py
lines 166-236)

The loop body is embedded as a step function on the fields it touches.
The stochastic collaborators are parameters: `obstacle i` is the obstacle
draw of `_check_obstacles` at iteration `i` (zero obstacle probability is
`fun i => false`), and `batteryOk i` says whether every battery
consumption of `_move_to_point` succeeded during iteration `i`
(sufficient battery is `fun i => true`; on a failure `_move_to_point`
sets the emergency flag and mode `EMERGENCY` and breaks, lines 307-311). -/

/-- The movement-loop fields of the controller. -/
structure MoveState where
  mode : RobotMode
  pathIndex : ℕ
  emergency : Bool
  isMoving : Bool
  obstacleDetected : Bool
deriving DecidableEq

/-- One non-obstacle iteration of the `while` body after `_move_to_point`
returns (robot_controller.py lines 187-222): advance `path_index`; if it
now is at least `len(path) - 1`, apply the mode-transition chain of lines
199-221 (`RETURN → IDLE` also clears `is_moving`). -/
def moveStep (pathLen : ℕ) (s : MoveState) : MoveState :=
  let idx1 := s.pathIndex + 1
  if pathLen - 1 ≤ idx1 then
    match s.mode with
    | .PICKUP => { s with pathIndex := idx1, mode := .TRANSIT }
    | .TRANSIT => { s with pathIndex := idx1, mode := .DELIVERY }
    | .DELIVERY => { s with pathIndex := idx1, mode := .RETURN }
    | .RETURN => { s with pathIndex := idx1, mode := .IDLE, isMoving := false }
    | _ => { s with pathIndex := idx1 }
  else
    { s with pathIndex := idx1 }

/-- One full iteration of the `while` body (robot_controller.py lines
171-223) given that iteration's stochastic draws.  An obstacle iteration
(lines 179-183) sets the obstacle flag, dwells and retries without
advancing the index; a battery failure inside `_move_to_point` sets the
emergency flag and the `EMERGENCY` mode, after which control still
returns to line 194 and the index is advanced (the transition chain then
matches no branch). -/
def moveIter (pathLen : ℕ) (obstacle batteryOk : Bool) (s : MoveState) :
    MoveState :=
  if obstacle then
    { s with obstacleDetected := true }
  else
    let s0 : MoveState := { s with obstacleDetected := false }
    let s1 : MoveState :=
      if batteryOk then s0
      else { s0 with emergency := true, mode := .EMERGENCY }
    moveStep pathLen s1

/-- The `while` loop of `_move_along_path` (lines 171-223): it runs while
`path_index < len(path) - 1` and the emergency flag is clear.  `fuel`
bounds the number of iterations; every non-obstacle iteration increments
`path_index`, so with obstacle draws all false any `fuel ≥ pathLen`
reaches the real exit.  The second component is the trace of modes held
at the end of each executed iteration. -/
def runLoop (pathLen : ℕ) (obstacle batteryOk : ℕ → Bool) :
    ℕ → ℕ → MoveState → MoveState × List RobotMode
  | 0, _, s => (s, [])
  | fuel + 1, i, s =>
    if s.pathIndex < pathLen - 1 ∧ s.emergency = false then
      let s1 := moveIter pathLen (obstacle i) (batteryOk i) s
      let r := runLoop pathLen obstacle batteryOk fuel (i + 1) s1
      (r.1, s1.mode :: r.2)
    else
      (s, [])

/-- Loop state at the start of a mission's movement task: `start_delivery`
has just set mode `PICKUP`, `path_index = 0`, the emergency flag cleared
and `is_moving = True` (robot_controller.py lines 118-126). -/
def missionStart : MoveState :=
  { mode := .PICKUP
    pathIndex := 0
    emergency := false
    isMoving := true
    obstacleDetected := false }

/-! ### Operation order inside `start_delivery` (robot_controller.py
lines 117-139)

For the task-replacement claim, the success path of `start_delivery` is
embedded as the sequence of its state writes and task operations, in
source order. -/

/-- The observable operations of `start_delivery`'s success path. -/
inductive MissionEvent
  | writeMode
  | writePosition
  | writeTarget
  | writePath
  | writeTotalPath
  | writePathIndex
  | writeDistanceTraveled
  | writeEmergencyFlag
  | writeIsMoving
  | cancelOldTask
  | awaitOldTaskTermination
  | createMovementTask
deriving DecidableEq

/-- Source order of the operations of `start_delivery`'s success path when
a previous movement task is still active: the state-initialization block
of lines 118-126 (mode, position, target, `self.path`, `total_path`,
`path_index`, `distance_traveled_m`, emergency flag, `is_moving`), then
the cancel-and-await block of lines 131-136, then `create_task` at
line 138. -/
def start_delivery_success_events : List MissionEvent :=
  [.writeMode, .writePosition, .writeTarget, .writePath, .writeTotalPath,
   .writePathIndex, .writeDistanceTraveled, .writeEmergencyFlag,
   .writeIsMoving, .cancelOldTask, .awaitOldTaskTermination,
   .createMovementTask]

/-- The writes of the shared path/target fields named by the
task-replacement requirement. -/
def pathTargetWrites : List MissionEvent :=
  [.writePath, .writeTotalPath, .writeTarget, .writePathIndex]

/-! ## Route costs (`app/services/routing_engine.py`,
`app/services/map_service.py`) -/

/-- A road-graph edge: physical length in meters and the `highway` tag. -/
structure Edge where
  length : ℚ
  highway : String
deriving DecidableEq

/-- `RoutingEngine.road_type_weights` (routing_engine.py lines 20-31),
including the `RoadType.RESIDENTIAL.value = 1.5` default applied to
unknown classes (line 50).  `1.2 = 6/5`, `1.5 = 3/2`. -/
def road_type_weights (road_type : String) : ℚ :=
  if road_type = "motorway" then 1
  else if road_type = "trunk" then 1
  else if road_type = "primary" then 6 / 5
  else if road_type = "secondary" then 6 / 5
  else if road_type = "tertiary" then 3 / 2
  else if road_type = "residential" then 3 / 2
  else if road_type = "service" then 2
  else if road_type = "unclassified" then 2
  else if road_type = "path" then 3
  else if road_type = "footway" then 3
  else 3 / 2

/-- The edge-cost (`weight`) function of
`RoutingEngine.calculate_route_astar` (routing_engine.py lines 44-51):
physical length times road-class weight. -/
def routing_engine_astar_weight (e : Edge) : ℚ :=
  e.length * road_type_weights e.highway

/-- The edge-cost function of the A* call in `MapService._osm_route`
(map_service.py line 195-196): `weight='length'`, i.e. the raw physical
length, with no road-class factor. -/
def osm_route_astar_weight (e : Edge) : ℚ :=
  e.length

/-- Cost of a node path under a pairwise cost function `w`: the sum of
`w` over consecutive node pairs (the `distance` accumulation pattern of
routing_engine.py lines 58-61 / map_service.py lines 202-206). -/
def routeCost {V : Type} (w : V → V → ℚ) : List V → ℚ
  | [] => 0
  | [_] => 0
  | a :: b :: rest => w a b + routeCost w (b :: rest)

/-! ## Subscriber registry (`app/api/websocket_manager.py`) -/

/-- `ConnectionManager.active_connections`: an association of robot ids to
sets of subscriber handles (handles are modelled as naturals). -/
structure ConnectionManager where
  active_connections : List (String × Finset ℕ)
deriving DecidableEq

/-- The registry invariant: every robot id present maps to a non-empty
subscriber set. -/
def RegistryInvariant (m : ConnectionManager) : Prop :=
  ∀ p ∈ m.active_connections, p.2 ≠ ∅

instance (m : ConnectionManager) : Decidable (RegistryInvariant m) :=
  List.decidableBAll _ _

/-- `ConnectionManager.disconnect` (websocket_manager.py lines 22-27):
if the robot id is present, discard the handle from its set and delete
the entry when the set became empty. -/
def disconnect (m : ConnectionManager) (ws : ℕ) (robot_id : String) :
    ConnectionManager :=
  if (m.active_connections.lookup robot_id).isSome then
    ⟨m.active_connections.filterMap (fun p =>
      if p.1 = robot_id then
        if p.2.erase ws = ∅ then none else some (p.1, p.2.erase ws)
      else some p)⟩
  else
    m

/-- `ConnectionManager.broadcast_robot_state` (websocket_manager.py lines
29-51): when the robot id has no entry, nothing is attempted; otherwise a
delivery is attempted to every subscriber in its set, and the subscribers
whose send failed (`sendFails`) are discarded from the set at the end of
the tick — without deleting the entry when the set becomes empty.
Returns the set of subscribers a delivery was attempted to, and the
updated registry. -/
def broadcast_robot_state (m : ConnectionManager) (robot_id : String)
    (sendFails : ℕ → Bool) : Finset ℕ × ConnectionManager :=
  match m.active_connections.lookup robot_id with
  | none => (∅, m)
  | some s =>
    let s1 := s.filter (fun c => sendFails c = false)
    (s, ⟨m.active_connections.map (fun p =>
      if p.1 = robot_id then (p.1, s1) else p)⟩)

/-! ## Concrete instances used in the theorems below -/

/-- A freshly initialized battery (`__init__` starts fully charged at the
default 2.5 kWh capacity). -/
def fullBattery : BatteryModel :=
  { stats := { capacity_kwh := 5 / 2, current_charge_kwh := 5 / 2 } }

/-- A battery currently charging, holding 1 kWh of its 2.5 kWh capacity. -/
def chargingBattery : BatteryModel :=
  { stats := { capacity_kwh := 5 / 2, current_charge_kwh := 1, charging := true } }

/-- A deeply discharged battery (ratio `0.1`, health consistently
`CRITICAL`). -/
def drainedBattery : BatteryModel :=
  { stats := { capacity_kwh := 5 / 2, current_charge_kwh := 1 / 4,
               health := .CRITICAL } }

/-- A controller in its initial state with a full battery. -/
def baseController : RobotController :=
  { state := {}, battery := fullBattery }

/-- A controller in mode `IDLE` whose emergency flag is still set
(reachable: `emergency_stop`, then a `start_delivery` that fails
validation sets mode `IDLE` without touching the flag). -/
def idleFlaggedController : RobotController :=
  { state := {}, battery := fullBattery, emergency_stop_activated := true }

/-- A registry holding one robot with one subscriber. -/
def singletonRegistry : ConnectionManager := ⟨[("R001", {1})]⟩

/-- The empty registry. -/
def emptyRegistry : ConnectionManager := ⟨[]⟩

/-- A 100 m footway edge. -/
def footwayEdge : Edge := ⟨100, "footway"⟩

/-- Absolute-difference distance on `ℚ`: a concrete metric used to
instantiate the admissibility statement on a one-dimensional graph. -/
def absDist : ℚ → ℚ → ℚ := fun a b => |a - b|

/-! ## Theorems -/

/-- C1: the claim says the movement task started with a mission of a ≥2-point
path, sufficient battery, zero obstacle probability and no emergency stop
drives the mode through PICKUP, TRANSIT, DELIVERY, RETURN and finally IDLE.
Evaluating the embedded loop on such a mission (a 3-point path, all
obstacle draws false, every battery consumption succeeding) shows the task
applies the single transition PICKUP → TRANSIT at the final waypoint and
then terminates: DELIVERY, RETURN and IDLE are never entered and
`is_moving` is never cleared, because nothing ever resets `path_index`
once it reaches `len(path) - 1`. -/
theorem C1_movement_task_single_transition :
    (runLoop 3 (fun _ => false) (fun _ => true) 10 0 missionStart).1.mode
        = RobotMode.TRANSIT
    ∧ RobotMode.DELIVERY
        ∉ (runLoop 3 (fun _ => false) (fun _ => true) 10 0 missionStart).2
    ∧ RobotMode.RETURN
        ∉ (runLoop 3 (fun _ => false) (fun _ => true) 10 0 missionStart).2
    ∧ RobotMode.IDLE
        ∉ (runLoop 3 (fun _ => false) (fun _ => true) 10 0 missionStart).2
    ∧ (runLoop 3 (fun _ => false) (fun _ => true) 10 0 missionStart).1.isMoving
        = true := by
  decide

/-- C2 counterexample: in `start_delivery`'s success path the shared
path/target fields are written (source lines 118-126) before the previous
movement task is cancelled and awaited (lines 131-136), so it is false
that the cancel-and-await pair precedes the write of `self.path`. -/
theorem C2_path_writes_precede_cancel :
    ¬ (start_delivery_success_events.indexOf MissionEvent.cancelOldTask
          < start_delivery_success_events.indexOf MissionEvent.writePath
        ∧ start_delivery_success_events.indexOf MissionEvent.awaitOldTaskTermination
          < start_delivery_success_events.indexOf MissionEvent.writePath) := by
  decide

/-- C2 amended: in `start_delivery` the writes of all shared path/target
fields come first, then the previous movement task is cancelled, then its
termination is awaited, and only after that is the new movement task
created — so at most one movement task exists whenever one is created,
but the field writes precede (not follow) the cancellation. -/
theorem C2_task_replacement_order :
    (∀ e ∈ pathTargetWrites,
      start_delivery_success_events.indexOf e
        < start_delivery_success_events.indexOf MissionEvent.cancelOldTask)
    ∧ start_delivery_success_events.indexOf MissionEvent.cancelOldTask
        < start_delivery_success_events.indexOf MissionEvent.awaitOldTaskTermination
    ∧ start_delivery_success_events.indexOf MissionEvent.awaitOldTaskTermination
        < start_delivery_success_events.indexOf MissionEvent.createMovementTask := by
  decide

/-- C3 counterexample: `resume_mission` is not a no-op outside EMERGENCY —
on a controller in mode IDLE whose emergency flag is still set, it clears
the flag and hence changes the state. -/
theorem C3_resume_clears_flag_outside_emergency :
    idleFlaggedController.state.mode ≠ RobotMode.EMERGENCY
    ∧ idleFlaggedController.emergency_stop_activated = true
    ∧ (resume_mission idleFlaggedController).emergency_stop_activated = false := by
  decide

/-- C3 amended: `resume_mission` always clears the emergency flag; apart
from that it changes nothing except the mode, which becomes TRANSIT
exactly when it was EMERGENCY (regardless of the mode active when the
emergency occurred); being a total function it never raises. -/
theorem C3_resume_mission_spec (c : RobotController) :
    (resume_mission c).state.mode
        = (if c.state.mode = RobotMode.EMERGENCY then RobotMode.TRANSIT
           else c.state.mode)
    ∧ (resume_mission c).emergency_stop_activated = false
    ∧ (resume_mission c).battery = c.battery
    ∧ (resume_mission c).path = c.path
    ∧ (resume_mission c).is_moving = c.is_moving
    ∧ (resume_mission c).state.current_lat = c.state.current_lat
    ∧ (resume_mission c).state.current_lon = c.state.current_lon
    ∧ (resume_mission c).state.battery_percentage = c.state.battery_percentage
    ∧ (resume_mission c).state.current_speed_kmh = c.state.current_speed_kmh
    ∧ (resume_mission c).state.target_lat = c.state.target_lat
    ∧ (resume_mission c).state.target_lon = c.state.target_lon
    ∧ (resume_mission c).state.path_index = c.state.path_index
    ∧ (resume_mission c).state.total_path = c.state.total_path
    ∧ (resume_mission c).state.distance_traveled_m = c.state.distance_traveled_m
    ∧ (resume_mission c).state.obstacle_detected = c.state.obstacle_detected
    ∧ (resume_mission c).state.error_message = c.state.error_message := by
  unfold resume_mission
  split <;> simp_all

/-- C5 counterexample: `can_complete_route` does not guarantee that the
following `consume_energy` succeeds.  On a charging battery the check
returns true (it ignores the charging flag) while `consume_energy` with
the same distance and speed fails with the charging guard, mutating
nothing; and at distance 1000 m with speed 0 the check also passes while
`consume_energy` raises `ZeroDivisionError` from the current-draw
computation instead of succeeding. -/
theorem C5_charging_breaks_consume_after_check :
    (can_complete_route chargingBattery 1000 10 = true
      ∧ (consume_energy chargingBattery 1000 10 0).1.success = false
      ∧ (consume_energy chargingBattery 1000 10 0).2 = chargingBattery)
    ∧ (can_complete_route fullBattery 1000 0 = true
      ∧ (consume_energy fullBattery 1000 0 0).1 = ConsumeOutcome.zeroDivisionError
      ∧ (consume_energy fullBattery 1000 0 0).1.success = false) := by
  refine ⟨⟨?_, rfl, rfl⟩, ?_, ?_, ?_⟩
  · norm_num [can_complete_route, calculate_consumption, chargingBattery]
  · norm_num [can_complete_route, calculate_consumption, fullBattery]
  · norm_num [consume_energy, calculate_consumption, fullBattery]
  · norm_num [consume_energy, calculate_consumption, fullBattery,
      ConsumeOutcome.success]

/-- C6 counterexample: with arbitrary arguments the battery bounds are not
preserved — from a full, in-bounds battery, `charge(-5)` drives the charge
to `-2.5 < 0`, and `consume_energy` with grade `-50%` (a negative
computed consumption) drives the charge above capacity. -/
theorem C6_charge_invariant_violation :
    (0 ≤ fullBattery.stats.current_charge_kwh
      ∧ fullBattery.stats.current_charge_kwh ≤ fullBattery.stats.capacity_kwh)
    ∧ (charge fullBattery (-5)).2.stats.current_charge_kwh < 0
    ∧ fullBattery.stats.capacity_kwh
        < (consume_energy fullBattery 1000 10 (-50)).2.stats.current_charge_kwh := by
  refine ⟨⟨by norm_num [fullBattery], by norm_num [fullBattery]⟩, ?_, ?_⟩
  · norm_num [charge, fullBattery, min_def]
  · norm_num [consume_energy, calculate_consumption, fullBattery, min_def,
      classifyHealth]

/-- C7 counterexample: `charge` does not recompute the health field — on a
drained battery whose health consistently reads CRITICAL, charging back
to full leaves health at CRITICAL although the classification of the new
ratio is EXCELLENT. -/
theorem C7_charge_stale_health :
    drainedBattery.stats.health
        = classifyHealth (drainedBattery.stats.current_charge_kwh
            / drainedBattery.stats.capacity_kwh)
    ∧ (charge drainedBattery (5 / 2)).2.stats.health
        ≠ classifyHealth ((charge drainedBattery (5 / 2)).2.stats.current_charge_kwh
            / (charge drainedBattery (5 / 2)).2.stats.capacity_kwh) := by
  constructor
  · norm_num [drainedBattery, classifyHealth]
  · norm_num [charge, drainedBattery, classifyHealth, min_def]
    decide

/-- C8 counterexample: the A* call of `MapService._osm_route` — the one
route computation uses — costs every edge by its raw physical length
(`weight='length'`), so for a 100 m footway edge its cost differs from
the claimed length × road-class-weight cost (which would be 300). -/
theorem C8_osm_astar_unweighted :
    osm_route_astar_weight footwayEdge
      ≠ footwayEdge.length * road_type_weights footwayEdge.highway
    ∧ road_type_weights footwayEdge.highway = 3 := by
  constructor
  · norm_num [osm_route_astar_weight, road_type_weights, footwayEdge]
    decide
  · norm_num [road_type_weights, footwayEdge]
    decide

/-- C9 counterexample: `charge(0)` is not a no-op on every battery state —
on a charging battery it resets the charging flag, because `charge` sets
`charging = (energy_kwh > 0)` unconditionally. -/
theorem C9_charge_zero_flag_reset :
    chargingBattery.stats.charging = true
    ∧ (charge chargingBattery 0).2.stats.charging = false := by
  decide

/-- C10 counterexample: the broadcast tick's pruning does not preserve the
registry invariant — on a registry mapping one robot to one subscriber
whose send fails, the tick discards the subscriber but keeps the robot's
entry, leaving it mapped to the empty set. -/
theorem C10_broadcast_leaves_empty_entry :
    RegistryInvariant singletonRegistry
    ∧ ¬ RegistryInvariant
        (broadcast_robot_state singletonRegistry "R001" (fun _ => true)).2
    ∧ (broadcast_robot_state singletonRegistry "R001"
        (fun _ => true)).2.active_connections.length = 1 := by
  decide

/-- C4: a `start_delivery` call whose path has fewer than 2 points, or whose
predicted consumption fails the `can_complete_route` check, returns a
failure result synchronously with mode IDLE and a recorded error message,
and mutates nothing else: path, total_path, target, path_index,
distance_traveled and the battery are all left unchanged. -/
theorem C4_start_mission_rejection (pathDistance : List (ℚ × ℚ) → ℚ)
    (c : RobotController) (pickup delivery : ℚ × ℚ) (path : List (ℚ × ℚ))
    (h : path.length < 2
      ∨ can_complete_route c.battery (pathDistance path) ROBOT_SPEED_KMH = false) :
    (start_delivery pathDistance c pickup delivery path).1.success = false
    ∧ (start_delivery pathDistance c pickup delivery path).1.error.isSome = true
    ∧ (start_delivery pathDistance c pickup delivery path).2.state.mode
        = RobotMode.IDLE
    ∧ (start_delivery pathDistance c pickup delivery path).2.state.error_message.isSome
        = true
    ∧ (start_delivery pathDistance c pickup delivery path).2.path = c.path
    ∧ (start_delivery pathDistance c pickup delivery path).2.state.total_path
        = c.state.total_path
    ∧ (start_delivery pathDistance c pickup delivery path).2.state.target_lat
        = c.state.target_lat
    ∧ (start_delivery pathDistance c pickup delivery path).2.state.target_lon
        = c.state.target_lon
    ∧ (start_delivery pathDistance c pickup delivery path).2.state.path_index
        = c.state.path_index
    ∧ (start_delivery pathDistance c pickup delivery path).2.state.distance_traveled_m
        = c.state.distance_traveled_m
    ∧ (start_delivery pathDistance c pickup delivery path).2.battery = c.battery := by
  unfold start_delivery
  rcases h with h | h
  · simp [h]
  · by_cases h2 : path.length < 2
    · simp [h2]
    · simp [h2, h]

/-- C4 witness: a 1-point path is rejected on the freshly initialized
controller. -/
theorem C4_start_mission_rejection_witness :
    [((0 : ℚ), (0 : ℚ))].length < 2
    ∧ (start_delivery (fun _ => 0) baseController (0, 0) (0, 0) [(0, 0)]).1.success
        = false
    ∧ (start_delivery (fun _ => 0) baseController (0, 0) (0, 0) [(0, 0)]).2.state.mode
        = RobotMode.IDLE
    ∧ (start_delivery (fun _ => 0) baseController (0, 0) (0, 0) [(0, 0)]).2.battery
        = baseController.battery :=
  ⟨by decide,
   (C4_start_mission_rejection (fun _ => 0) baseController (0, 0) (0, 0) [(0, 0)]
     (Or.inl (by decide))).1,
   (C4_start_mission_rejection (fun _ => 0) baseController (0, 0) (0, 0) [(0, 0)]
     (Or.inl (by decide))).2.2.1,
   (C4_start_mission_rejection (fun _ => 0) baseController (0, 0) (0, 0) [(0, 0)]
     (Or.inl (by decide))).2.2.2.2.2.2.2.2.2.2⟩

/-- C5 amended: `can_complete_route` is the pure check
`predicted consumption ≤ 0.9 × current_charge_kwh` (it returns a boolean
and mutates nothing), and — provided the battery is not charging, its
charge is nonnegative, and the call is not the zero-division case
(distance > 0 with speed 0, where `consume_energy` raises
`ZeroDivisionError` instead of returning) — a
`can_complete_route(d, s) = true` verdict guarantees that an immediately
following `consume_energy(d, s, 0)` succeeds. -/
theorem C5_can_complete_route_spec (m : BatteryModel) (d s : ℚ)
    (hchg : m.stats.charging = false)
    (hpos : 0 ≤ m.stats.current_charge_kwh)
    (hdiv : ¬ (0 < d ∧ s = 0)) :
    (can_complete_route m d s = true
      ↔ calculate_consumption m d s 0 ≤ m.stats.current_charge_kwh * (9 / 10))
    ∧ (can_complete_route m d s = true →
        (consume_energy m d s 0).1.success = true) := by
  constructor
  · simp [can_complete_route]
  · intro h
    have h9 : calculate_consumption m d s 0
        ≤ m.stats.current_charge_kwh * (9 / 10) := by
      simpa [can_complete_route] using h
    have hle : ¬ (m.stats.current_charge_kwh < calculate_consumption m d s 0) := by
      push_neg
      linarith
    simp [consume_energy, hchg, hle, hdiv, ConsumeOutcome.success]

/-- C5 witness: on the freshly initialized battery, the route check for a
1 km route at 10 km/h (a nonzero speed, so no zero division) passes and
the subsequent consumption succeeds. -/
theorem C5_can_complete_route_spec_witness :
    (fullBattery.stats.charging = false
      ∧ 0 ≤ fullBattery.stats.current_charge_kwh
      ∧ ¬ (0 < (1000 : ℚ) ∧ (10 : ℚ) = 0))
    ∧ ((can_complete_route fullBattery 1000 10 = true
        ↔ calculate_consumption fullBattery 1000 10 0
            ≤ fullBattery.stats.current_charge_kwh * (9 / 10))
      ∧ (can_complete_route fullBattery 1000 10 = true →
          (consume_energy fullBattery 1000 10 0).1.success = true)) :=
  ⟨⟨rfl, by norm_num [fullBattery], by norm_num⟩,
   C5_can_complete_route_spec fullBattery 1000 10 rfl (by norm_num [fullBattery])
     (by norm_num)⟩

/-- C6 amended: from any in-bounds battery state, `consume_energy` never
drives the charge below 0 (for arbitrary arguments) and never above the
capacity whenever the computed consumption is nonnegative (in particular
for nonnegative distance and grade); `charge` never drives the charge
above the capacity (for arbitrary arguments) and never below 0 for a
nonnegative energy argument; the capacity itself is never changed.  With
a sufficiently negative grade (computed consumption < 0) or a negative
charging energy the bounds can be violated, as the counterexample
records. -/
theorem C6_battery_bounds (m : BatteryModel) (e d s g : ℚ)
    (h0 : 0 ≤ m.stats.current_charge_kwh)
    (h1 : m.stats.current_charge_kwh ≤ m.stats.capacity_kwh) :
    (0 ≤ (consume_energy m d s g).2.stats.current_charge_kwh)
    ∧ (0 ≤ calculate_consumption m d s g →
        (consume_energy m d s g).2.stats.current_charge_kwh
          ≤ (consume_energy m d s g).2.stats.capacity_kwh)
    ∧ ((consume_energy m d s g).2.stats.capacity_kwh = m.stats.capacity_kwh)
    ∧ (0 ≤ e → 0 ≤ (charge m e).2.stats.current_charge_kwh)
    ∧ ((charge m e).2.stats.current_charge_kwh ≤ (charge m e).2.stats.capacity_kwh)
    ∧ ((charge m e).2.stats.capacity_kwh = m.stats.capacity_kwh) := by
  have hcap : 0 ≤ m.stats.capacity_kwh := h0.trans h1
  have hkey : (consume_energy m d s g).2.stats.current_charge_kwh
        = m.stats.current_charge_kwh
      ∨ (calculate_consumption m d s g ≤ m.stats.current_charge_kwh
        ∧ (consume_energy m d s g).2.stats.current_charge_kwh
            = m.stats.current_charge_kwh - calculate_consumption m d s g) := by
    simp only [consume_energy]
    split
    · left
      rfl
    · split
      · left
        rfl
      · split
        · right
          exact ⟨not_lt.mp (by assumption), rfl⟩
        · right
          exact ⟨not_lt.mp (by assumption), rfl⟩
  have hcapeq : (consume_energy m d s g).2.stats.capacity_kwh
      = m.stats.capacity_kwh := by
    simp only [consume_energy]
    split
    · rfl
    · split
      · rfl
      · split
        · rfl
        · rfl
  refine ⟨?_, ?_, hcapeq, ?_, ?_, ?_⟩
  · rcases hkey with hk | ⟨hc, hk⟩
    · rw [hk]
      exact h0
    · rw [hk]
      linarith
  · intro hcons
    rw [hcapeq]
    rcases hkey with hk | ⟨hc, hk⟩
    · rw [hk]
      exact h1
    · rw [hk]
      linarith
  · intro he
    simp only [charge]
    exact le_min (by linarith) hcap
  · simp only [charge]
    exact min_le_right _ _
  · rfl

/-- C6 witness: the bounds at the freshly initialized battery for a 1 km
segment at 10 km/h on flat ground and a 1 kWh charge. -/
theorem C6_battery_bounds_witness :
    (0 ≤ fullBattery.stats.current_charge_kwh
      ∧ fullBattery.stats.current_charge_kwh ≤ fullBattery.stats.capacity_kwh)
    ∧ (0 ≤ (consume_energy fullBattery 1000 10 0).2.stats.current_charge_kwh)
    ∧ ((charge fullBattery 1).2.stats.current_charge_kwh
        ≤ (charge fullBattery 1).2.stats.capacity_kwh) :=
  ⟨⟨by norm_num [fullBattery], by norm_num [fullBattery]⟩,
   (C6_battery_bounds fullBattery 1 1000 10 0 (by norm_num [fullBattery])
     (by norm_num [fullBattery])).1,
   (C6_battery_bounds fullBattery 1 1000 10 0 (by norm_num [fullBattery])
     (by norm_num [fullBattery])).2.2.2.2.1⟩

/-- C7 amended: after every successful `consume_energy` the stored health
field equals the threshold classification of the new
`current_charge_kwh / capacity_kwh` ratio; `charge` does not recompute
health, so the field can be stale after charging (see the
counterexample). -/
theorem C7_consume_health_recomputed (m : BatteryModel) (d s g : ℚ)
    (h : (consume_energy m d s g).1.success = true) :
    (consume_energy m d s g).2.stats.health
      = classifyHealth ((consume_energy m d s g).2.stats.current_charge_kwh
          / (consume_energy m d s g).2.stats.capacity_kwh) := by
  by_cases hchg : m.stats.charging = true
  · simp [consume_energy, hchg, ConsumeOutcome.success] at h
  · by_cases hins : m.stats.current_charge_kwh < calculate_consumption m d s g
    · simp [consume_energy, hchg, hins, ConsumeOutcome.success] at h
    · by_cases hdiv : 0 < d ∧ s = 0
      · obtain ⟨hd0, hs0⟩ := hdiv
        subst hs0
        simp [consume_energy, hchg, hins, hd0, ConsumeOutcome.success] at h
      · simp [consume_energy, hchg, hins, hdiv, ConsumeOutcome.success]

/-- C7 witness: a successful consumption on the freshly initialized
battery leaves health equal to the classification of the new ratio. -/
theorem C7_consume_health_recomputed_witness :
    (consume_energy fullBattery 1000 10 0).1.success = true
    ∧ (consume_energy fullBattery 1000 10 0).2.stats.health
        = classifyHealth ((consume_energy fullBattery 1000 10 0).2.stats.current_charge_kwh
            / (consume_energy fullBattery 1000 10 0).2.stats.capacity_kwh) :=
  ⟨by norm_num [consume_energy, calculate_consumption, fullBattery,
      ConsumeOutcome.success],
   C7_consume_health_recomputed fullBattery 1000 10 0
     (by norm_num [consume_energy, calculate_consumption, fullBattery,
        ConsumeOutcome.success])⟩

/-- Every road-class weight factor of `RoutingEngine` is at least 1
(including the default applied to unknown classes). -/
theorem road_type_weights_ge_one (road_type : String) :
    1 ≤ road_type_weights road_type := by
  unfold road_type_weights
  split_ifs <;> norm_num

/-- Standard admissibility argument: a pairwise lower bound `h` that
vanishes on the diagonal, satisfies the triangle inequality and
under-approximates the cost of every edge never overestimates the cost
of any node path. -/
theorem routeCost_admissible {V : Type} (h w : V → V → ℚ)
    (hrefl : ∀ x, h x x = 0)
    (htri : ∀ a b c', h a c' ≤ h a b + h b c')
    (hedge : ∀ a b, h a b ≤ w a b) :
    ∀ (l : List V) (a b : V), (a :: l).getLast? = some b →
      h a b ≤ routeCost w (a :: l) := by
  intro l
  induction l with
  | nil =>
    intro a b hb
    simp at hb
    subst hb
    simp [routeCost, hrefl]
  | cons y rest ih =>
    intro a b hb
    have hb2 : (y :: rest).getLast? = some b := by
      simpa [List.getLast?_cons_cons] using hb
    calc h a b ≤ h a y + h y b := htri a y b
      _ ≤ w a y + routeCost w (y :: rest) :=
          add_le_add (hedge a y) (ih y b hb2)
      _ = routeCost w (a :: y :: rest) := rfl

/-- C8 amended: the length-times-road-class-weight cost (highway 1.0 up to
pedestrian 3.0, default 1.5 for unknown classes) is the edge cost of
`RoutingEngine.calculate_route_astar` only; the A* of
`MapService._osm_route` — the one used for route computation — costs
every edge by its raw physical length (see the counterexample).  Every
weight factor is ≥ 1, so the weighted cost of an edge is at least its
length; and any heuristic that vanishes on the diagonal, satisfies the
triangle inequality and under-approximates every single edge's cost
never overestimates the cost of any path between two nodes. -/
theorem C8_astar_costs_and_admissibility :
    (∀ road_type : String, 1 ≤ road_type_weights road_type)
    ∧ (∀ e : Edge, 0 ≤ e.length → e.length ≤ routing_engine_astar_weight e)
    ∧ (∀ (V : Type) (h w : V → V → ℚ),
        (∀ x, h x x = 0) →
        (∀ a b c', h a c' ≤ h a b + h b c') →
        (∀ a b, h a b ≤ w a b) →
        ∀ (l : List V) (a b : V), (a :: l).getLast? = some b →
          h a b ≤ routeCost w (a :: l)) := by
  refine ⟨road_type_weights_ge_one, ?_, ?_⟩
  · intro e he
    unfold routing_engine_astar_weight
    exact le_mul_of_one_le_right he (road_type_weights_ge_one e.highway)
  · intro V h w hrefl htri hedge
    exact routeCost_admissible h w hrefl htri hedge

/-- C8 witness: the weight facts at the footway edge and the
admissibility statement instantiated with the absolute-difference metric
on the three-node line `[0, 1, 2]`. -/
theorem C8_astar_costs_and_admissibility_witness :
    1 ≤ road_type_weights "footway"
    ∧ footwayEdge.length ≤ routing_engine_astar_weight footwayEdge
    ∧ absDist 0 2 ≤ routeCost absDist [0, 1, 2] :=
  ⟨C8_astar_costs_and_admissibility.1 "footway",
   C8_astar_costs_and_admissibility.2.1 footwayEdge (by norm_num [footwayEdge]),
   C8_astar_costs_and_admissibility.2.2 ℚ absDist absDist
     (fun x => by simp [absDist])
     (fun a b c' => abs_sub_le a b c')
     (fun a b => le_refl _)
     [1, 2] 0 2 rfl⟩

/-- C9 amended: on a battery within capacity, `charge(0)` leaves every
field unchanged except the charging flag, which it unconditionally
resets to false (`charging = (energy_kwh > 0)`); hence `charge(0)` is a
no-op exactly on states that were not charging. -/
theorem C9_charge_zero_spec (m : BatteryModel)
    (h : m.stats.current_charge_kwh ≤ m.stats.capacity_kwh) :
    (charge m 0).2 = { m with stats := { m.stats with charging := false } }
    ∧ (m.stats.charging = false → (charge m 0).2 = m) := by
  have hmin : min (m.stats.current_charge_kwh + 0) m.stats.capacity_kwh
      = m.stats.current_charge_kwh := by
    rw [add_zero]
    exact min_eq_left h
  have hflag : decide ((0 : ℚ) < 0) = false := by norm_num
  have key : (charge m 0).2
      = { m with stats := { m.stats with charging := false } } := by
    simp [charge, hmin, hflag]
    exact h
  refine ⟨key, fun hc => ?_⟩
  rw [key, ← hc]

/-- C9 witness: on the freshly initialized (not charging, in-capacity)
battery, `charge(0)` is a no-op. -/
theorem C9_charge_zero_spec_witness :
    fullBattery.stats.current_charge_kwh ≤ fullBattery.stats.capacity_kwh
    ∧ ((charge fullBattery 0).2
        = { fullBattery with stats := { fullBattery.stats with charging := false } }
      ∧ (fullBattery.stats.charging = false → (charge fullBattery 0).2 = fullBattery)) :=
  ⟨by norm_num [fullBattery],
   C9_charge_zero_spec fullBattery (by norm_num [fullBattery])⟩

/-- C10 amended: `disconnect` preserves the invariant that every robot id
present in the registry maps to a non-empty subscriber set (it deletes an
entry whose set becomes empty), and broadcasting to a robot with no
registry entry performs no delivery attempt and changes nothing; the
broadcast tick's pruning, however, can leave a robot id mapped to the
empty set (see the counterexample). -/
theorem C10_registry_invariant :
    (∀ (m : ConnectionManager) (ws : ℕ) (rid : String),
        RegistryInvariant m → RegistryInvariant (disconnect m ws rid))
    ∧ (∀ (m : ConnectionManager) (rid : String) (sendFails : ℕ → Bool),
        m.active_connections.lookup rid = none →
          (broadcast_robot_state m rid sendFails).1 = ∅
          ∧ (broadcast_robot_state m rid sendFails).2 = m) := by
  constructor
  · intro m ws rid hinv p hp
    unfold disconnect at hp
    split at hp
    · rcases List.mem_filterMap.mp hp with ⟨q, hq, hfq⟩
      by_cases hq1 : q.1 = rid
      · rw [if_pos hq1] at hfq
        by_cases hq2 : q.2.erase ws = ∅
        · rw [if_pos hq2] at hfq
          exact absurd hfq (by simp)
        · rw [if_neg hq2] at hfq
          obtain rfl : (q.1, q.2.erase ws) = p := Option.some.inj hfq
          exact hq2
      · rw [if_neg hq1] at hfq
        obtain rfl : q = p := Option.some.inj hfq
        exact hinv q hq
    · exact hinv p hp
  · intro m rid sendFails h
    constructor <;> simp [broadcast_robot_state, h]

/-- C10 witness: disconnecting the only subscriber of the singleton
registry preserves the invariant (the entry is deleted), and broadcasting
on the empty registry attempts no delivery. -/
theorem C10_registry_invariant_witness :
    (RegistryInvariant singletonRegistry
      ∧ RegistryInvariant (disconnect singletonRegistry 1 "R001"))
    ∧ (emptyRegistry.active_connections.lookup "R001" = none
      ∧ (broadcast_robot_state emptyRegistry "R001" (fun _ => true)).1 = ∅
      ∧ (broadcast_robot_state emptyRegistry "R001" (fun _ => true)).2 = emptyRegistry) :=
  ⟨⟨by decide, C10_registry_invariant.1 singletonRegistry 1 "R001" (by decide)⟩,
   ⟨rfl,
    (C10_registry_invariant.2 emptyRegistry "R001" (fun _ => true) rfl).1,
    (C10_registry_invariant.2 emptyRegistry "R001" (fun _ => true) rfl).2⟩⟩

end OpenRoad
